import Mathlib

set_option maxHeartbeats 1000000

/-!
Shallow embedding of the Rosette API Python client binding
(src/rosette/api.py): parameter containers, the retrying transport
loop, the gzip-aware POST wrapper, the endpoint caller and its error
translation.  Python bytes values are lists of byte values, Python or
JSON values are the inductive PyVal, Python dicts are association
lists, and raised exceptions are the PyErr error type threaded through
Except.  Functions from the Python standard library and third-party
packages (json.loads, json.dumps, gzip decompression, the file system
and the HTTP socket) are passed in as explicit function parameters,
mirroring a mocked transport.
-/

/-- Python byte strings are modelled as lists of byte values. -/
abbrev Bytes := List Nat

/-- Python values that occur as parameter values, JSON values and
exception fields in the binding. -/
inductive PyVal where
  | null
  | bool (b : Bool)
  | num (n : Int)
  | str (s : String)
  | bytes (b : Bytes)
  | arr (elems : List PyVal)
  | obj (fields : List (String × PyVal))

/-- A Python dict with string keys, as an association list that keeps
insertion order (the order Python dicts preserve). -/
abbrev PyDict := List (String × PyVal)

/-- Exceptions raised by the binding.  rosette models RosetteException
with its three fields status, message and response_message
(src/rosette/api.py lines 72-87); jsonDecode models the
json.JSONDecodeError that json.loads raises on input that is not valid
JSON; keyError models a Python KeyError on a dict subscript. -/
inductive PyErr where
  | rosette (status : PyVal) (message : Option PyVal) (response_message : PyVal)
  | jsonDecode
  | keyError (key : String)

/-- Dict lookup: the value at a key, if the key is present. -/
def pyDictGet (d : PyDict) (k : String) : Option PyVal :=
  (d.find? (fun kv => kv.1 == k)).map (fun kv => kv.2)

/-- Dict assignment d[k] = v: replaces the value of an existing key in
place, otherwise appends the new binding at the end. -/
def pyDictSet (d : PyDict) (k : String) (v : PyVal) : PyDict :=
  if d.any (fun kv => kv.1 == k) then
    d.map (fun kv => if kv.1 == k then (k, v) else kv)
  else d ++ [(k, v)]

/-- d.update(extra): assigns every binding of extra into d. -/
def pyDictUpdate (d : PyDict) (extra : PyDict) : PyDict :=
  extra.foldl (fun acc kv => pyDictSet acc kv.1 kv.2) d

/-- A single-quote character, used to model Python repr of strings. -/
def squote : String := String.singleton (Char.ofNat 39)

/-- Models Python repr of a string without special characters: the
string wrapped in single quotes.  Used for the response_message field
of parameter errors, which the source builds with repr. -/
def pyReprStr (s : String) : String := squote ++ s ++ squote

/-- The binding version constant _BINDING_VERSION. -/
def BINDING_VERSION : String := "1.1"

/-- The three-byte gzip magic number _GZIP_SIGNATURE
(bytearray 0x1F 0x8B 0x08, src/rosette/api.py line 31). -/
def gzipSignature : Bytes := [0x1F, 0x8B, 0x08]

/-- One HTTP response as observed by the binding: status code, raw
body bytes, and response headers. -/
structure HttpResponse where
  status : Nat
  body : Bytes
  headers : List (String × String)
deriving DecidableEq, Repr

/-- response headers folded into a JSON-like object value. -/
def headersToJson (h : List (String × String)) : PyVal :=
  .obj (h.map (fun kv => (kv.1, .str kv.2)))

/-- The dict built at src/rosette/api.py line 548: a single key
responseHeaders holding the response header dict. -/
def respHeadersDict (h : List (String × String)) : PyDict :=
  [("responseHeaders", headersToJson h)]

/-- _my_loads (src/rosette/api.py lines 61-69): parse the body as
JSON, then update the resulting dict with the response-header dict.
json.loads is passed in as the parameter loads; loads returning none
models json.loads raising on input that is not a valid JSON object. -/
def myLoads (loads : Bytes → Option PyDict) (obj : Bytes) (response_headers : PyDict) :
    Except PyErr PyDict :=
  match loads obj with
  | none => .error .jsonDecode
  | some d => .ok (pyDictUpdate d response_headers)

/-- _ReturnObject (src/rosette/api.py lines 51-58): a parsed JSON body
paired with an HTTP status code. -/
structure ReturnObject where
  json : PyDict
  status_code : Nat

/-- The per-endpoint repertoires of recognized parameter keys, as
passed to _DocumentParamSetBase.__init__ by each subclass constructor
(src/rosette/api.py lines 184-185, 238-239, 269-279, 312). -/
inductive ParamKind where
  | document
  | relationships
  | nameTranslation
  | nameSimilarity
deriving DecidableEq, Repr

def repertoire : ParamKind → List String
  | .document => ["content", "contentUri", "language", "genre"]
  | .relationships => ["content", "contentUri", "language", "options", "genre"]
  | .nameTranslation =>
      ["name", "targetLanguage", "entityType", "sourceLanguageOfOrigin",
       "sourceLanguageOfUse", "sourceScript", "targetScript", "targetScheme", "genre"]
  | .nameSimilarity => ["name1", "name2"]

/-- A parameter container: the subclass it was built as, the __params
dict (every recognized key mapped to an optional value, absent keys
holding none for Python None), and the file_name and useMultipart
attributes of DocumentParameters. -/
structure ParamSet where
  kind : ParamKind
  params : List (String × Option PyVal)
  file_name : String
  useMultipart : Bool

/-- The constructors (src/rosette/api.py lines 126-129, 182-187,
235-239, 267-279, 310-312): every recognized key is initialized to
None; file_name is empty and useMultipart false. -/
def ParamSet.init (k : ParamKind) : ParamSet :=
  ⟨k, (repertoire k).map (fun key => (key, none)), "", false⟩

/-- The badKey RosetteException raised by both __setitem__ and
__getitem__ on an unrecognized key (src/rosette/api.py lines 131-141). -/
def badKeyError (key : String) : PyErr :=
  .rosette (.str "badKey") (some (.str "Unknown Rosette parameter key"))
    (.str (pyReprStr key))

/-- _DocumentParamSetBase.__setitem__ (src/rosette/api.py lines
131-135): raise badKey unless the key is recognized, else assign. -/
def ParamSet.setItem (p : ParamSet) (key : String) (val : Option PyVal) :
    Except PyErr ParamSet :=
  if p.params.any (fun kv => kv.1 == key) then
    .ok { p with params := p.params.map (fun kv => if kv.1 == key then (key, val) else kv) }
  else .error (badKeyError key)

/-- _DocumentParamSetBase.__getitem__ (src/rosette/api.py lines
137-141): raise badKey unless the key is recognized, else look up. -/
def ParamSet.getItem (p : ParamSet) (key : String) : Except PyErr (Option PyVal) :=
  match p.params.find? (fun kv => kv.1 == key) with
  | some kv => .ok kv.2
  | none => .error (badKeyError key)

/-- _DocumentParamSetBase.serialize without the validate call
(src/rosette/api.py lines 148-154): the dict of all recognized keys
whose value is not None. -/
def ParamSet.baseSerialize (p : ParamSet) : PyDict :=
  p.params.filterMap (fun kv => kv.2.map (fun v => (kv.1, v)))

/-- DocumentParameters.validate (src/rosette/api.py lines 189-202):
exactly one of content and contentUri must be set, else badArgument. -/
def documentValidate (p : ParamSet) : Except PyErr Unit :=
  match p.getItem "content" with
  | .error e => .error e
  | .ok c =>
    match p.getItem "contentUri" with
    | .error e => .error e
    | .ok u =>
      match c, u with
      | none, none =>
          .error (.rosette (.str "badArgument")
            (some (.str "Must supply one of Content or ContentUri")) (.str "bad arguments"))
      | none, some _ => .ok ()
      | some _, none => .ok ()
      | some _, some _ =>
          .error (.rosette (.str "badArgument")
            (some (.str "Cannot supply both Content and ContentUri")) (.str "bad arguments"))

/-- The required-field loops of NameTranslationParameters.validate and
NameSimilarityParameters.validate (src/rosette/api.py lines 281-288,
314-321): raise missingParameter, naming the offending key with repr,
for the first required key whose value is None. -/
def requiredValidate (p : ParamSet) (required : List String) (msg : String) :
    Except PyErr Unit :=
  match required with
  | [] => .ok ()
  | n :: rest =>
    match p.getItem n with
    | .error e => .error e
    | .ok none =>
        .error (.rosette (.str "missingParameter") (some (.str msg)) (.str (pyReprStr n)))
    | .ok (some _) => requiredValidate p rest msg

/-- Dynamic dispatch of validate: DocumentParameters and
RelationshipsParameters use the content/contentUri rule; the name
containers use their required-field loops. -/
def ParamSet.validate (p : ParamSet) : Except PyErr Unit :=
  match p.kind with
  | .document => documentValidate p
  | .relationships => documentValidate p
  | .nameTranslation =>
      requiredValidate p ["name", "targetLanguage"]
        "Required Name Translation parameter not supplied"
  | .nameSimilarity =>
      requiredValidate p ["name1", "name2"]
        "Required Name Similarity parameter not supplied"

/-- serialize (src/rosette/api.py lines 146-154 and 204-208): validate
first, then return the dict of keys with non-None values.
DocumentParameters.serialize calls validate and then the base
serialize, which calls validate again; validate is pure, so the double
call is observationally a single one. -/
def ParamSet.serialize (p : ParamSet) : Except PyErr PyDict :=
  match p.validate with
  | .error e => .error e
  | .ok _ => .ok p.baseSerialize

/-- DocumentParameters.load_document_string (src/rosette/api.py lines
220-227): store the value in the content field. -/
def ParamSet.load_document_string (p : ParamSet) (s : PyVal) : Except PyErr ParamSet :=
  p.setItem "content" (some s)

/-- DocumentParameters.load_document_file (src/rosette/api.py lines
210-218): set useMultipart, remember the path in file_name, and load
the raw bytes of the file.  The file system read open(path).read() is
the parameter fs. -/
def ParamSet.load_document_file (fs : String → Bytes) (p : ParamSet) (path : String) :
    Except PyErr ParamSet :=
  ParamSet.load_document_string
    { p with useMultipart := true, file_name := path } (.bytes (fs path))

/-- Construction-time configuration of an API client, as fixed by
API.__init__ (src/rosette/api.py lines 482-511): retries floored at 1,
refresh duration floored at 0, service url forced to end in a slash.
The refresh duration, a Python float in the source, is modelled as a
rational number. -/
structure APIConfig where
  user_key : Option String
  service_url : String
  num_retries : Nat
  reuse_connection : Bool
  refresh_duration : ℚ
  debug : Bool

/-- API.__init__ (src/rosette/api.py lines 482-511). -/
def API.init (user_key : Option String) (service_url : String) (retries : Int)
    (reuse_connection : Bool) (refresh_duration : ℚ) (debug : Bool) : APIConfig :=
  { user_key := user_key
    service_url := if service_url.endsWith "/" then service_url else service_url ++ "/"
    num_retries := (if retries < 1 then 1 else retries).toNat
    reuse_connection := reuse_connection
    refresh_duration := if refresh_duration < 0 then 0 else refresh_duration
    debug := debug }

/-- Observable side effects of the transport loop: the blocking sleep
between retries, self.http_connection.close(), and a call of the
_connect method (which opens a fresh connection when reuse is disabled
or no connection object exists yet). -/
inductive Ev where
  | sleep (d : ℚ)
  | closeConn
  | connect
deriving DecidableEq, Repr

/-- The number of inter-retry sleeps in an event trace. -/
def sleepCount (evs : List Ev) : Nat :=
  evs.countP (fun e => match e with | .sleep _ => true | _ => false)

/-- Models the diagnostic message recorded on a 429 at
src/rosette/api.py line 556: the str.format rendering of the raw body
bytes (CPython 3 renders a bytes value as the letter b and the
single-quoted characters; modelled here for printable ASCII content)
followed by the attempt index in parentheses. -/
def format429 (rdata : Bytes) (i : Nat) : String :=
  "b" ++ squote ++ String.mk (rdata.map Char.ofNat) ++ squote
    ++ " (" ++ Nat.repr i ++ ")"

/-- The attempt loop of API._make_request (src/rosette/api.py lines
542-582).  The mocked network is the function responses, giving the
response observed by attempt number; json.loads is the parameter
loads.  Arguments after reuse: the attempt index i, the remaining
number of attempts (num_retries + 1 at the top call), and the code and
message variables carried across iterations (initialized to the string
unknownError and None at lines 538-539).  Returns the outcome of the
loop together with the trace of sleeps, closes and _connect calls it
performs.  When the attempts are exhausted, the connection is closed
if reuse is disabled and the last recorded code and message are raised
(lines 579-582).  response.read() always yields a bytes value, so the
rdata-is-not-None guard at line 561 is always taken. -/
def API.makeRequestLoop (loads : Bytes → Option PyDict) (url : String)
    (responses : Nat → HttpResponse) (refresh : ℚ) (reuse : Bool) :
    Nat → Nat → PyVal → Option PyVal →
      Except PyErr (Bytes × Nat × PyDict) × List Ev
  | _, 0, code, message =>
      (.error (.rosette code message (.str url)),
       if reuse then [] else [.closeConn])
  | i, fuel + 1, _code, message =>
      let r := responses i
      if r.status = 200 then
        (.ok (r.body, r.status, respHeadersDict r.headers),
         if reuse then [] else [.closeConn])
      else if r.status = 429 then
        let rest := API.makeRequestLoop loads url responses refresh reuse (i + 1) fuel
          (.num 429) (some (.str (format429 r.body i)))
        (rest.1, .sleep refresh :: .closeConn :: .connect :: rest.2)
      else
        match loads r.body with
        | none => (.error .jsonDecode, [])
        | some d =>
            let theJson := pyDictUpdate d (respHeadersDict r.headers)
            let message2 :=
              match pyDictGet theJson "message" with
              | some v => some v
              | none => message
            let code2 :=
              match pyDictGet theJson "code" with
              | some v => v
              | none => .num (r.status : Int)
            (.error (.rosette code2 message2 (.str url)), [])

/-- The full result of API._make_request: its return value or raised
exception, the trace of sleeps and connection events, and the request
body and headers handed to the HTTP connection. -/
structure ReqOutcome where
  result : Except PyErr (Bytes × Nat × PyDict)
  events : List Ev
  sentData : Option String
  sentHeaders : PyDict

/-- API._make_request (src/rosette/api.py lines 524-582): attach the
User-Agent header, call _connect (which opens a connection when reuse
is disabled or none exists — connAlive says whether one exists), then
run the attempt loop with num_retries + 1 attempts. -/
def API.makeRequest (loads : Bytes → Option PyDict) (cfg : APIConfig)
    (responses : Nat → HttpResponse) (connAlive : Bool)
    (_op url : String) (data : Option String) (headers : PyDict) : ReqOutcome :=
  let headers2 := pyDictSet headers "User-Agent" (.str ("RosetteAPIPython/" ++ BINDING_VERSION))
  let initEvs : List Ev :=
    if cfg.reuse_connection = false ∨ connAlive = false then [.connect] else []
  let out := API.makeRequestLoop loads url responses cfg.refresh_duration
    cfg.reuse_connection 0 (cfg.num_retries + 1) (.str "unknownError") none
  ⟨out.1, initEvs ++ out.2, data, headers2⟩

/-- API._get_http (src/rosette/api.py lines 584-593): a GET through
_make_request with body None, parsed by _my_loads into a
_ReturnObject. -/
def API.getHttp (loads : Bytes → Option PyDict) (cfg : APIConfig)
    (responses : Nat → HttpResponse) (connAlive : Bool)
    (url : String) (headers : PyDict) : Except PyErr ReturnObject × ReqOutcome :=
  let out := API.makeRequest loads cfg responses connAlive "GET" url none headers
  match out.result with
  | .error e => (.error e, out)
  | .ok (rdata, status, response_headers) =>
      ((myLoads loads rdata response_headers).map (fun js => ⟨js, status⟩), out)

/-- API._post_http (src/rosette/api.py lines 595-615): JSON-encode a
non-None body (the empty string for None), POST through _make_request,
gunzip the raw bytes when they are longer than three bytes and start
with the gzip magic number, then parse with _my_loads.  json.dumps and
the gzip decompressor are the parameters dumps and gunzip. -/
def API.postHttp (loads : Bytes → Option PyDict) (dumps : PyDict → String)
    (gunzip : Bytes → Bytes) (cfg : APIConfig) (responses : Nat → HttpResponse)
    (connAlive : Bool) (url : String) (data : Option PyDict) (headers : PyDict) :
    Except PyErr ReturnObject × ReqOutcome :=
  let json_data := match data with | none => "" | some d => dumps d
  let out := API.makeRequest loads cfg responses connAlive "POST" url (some json_data) headers
  match out.result with
  | .error e => (.error e, out)
  | .ok (rdata, status, response_headers) =>
      let rdata2 :=
        if rdata.length > 3 ∧ rdata.take 3 = gzipSignature then gunzip rdata else rdata
      ((myLoads loads rdata2 response_headers).map (fun js => ⟨js, status⟩), out)

/-- An EndpointCaller as built from an API object and a sub-path
(src/rosette/api.py lines 341-351); suburl is None for the callers
that serve ping and info. -/
structure EndpointCaller where
  service_url : String
  user_key : Option String
  suburl : Option String
  debug : Bool

def EndpointCaller.init (cfg : APIConfig) (suburl : Option String) : EndpointCaller :=
  ⟨cfg.service_url, cfg.user_key, suburl, cfg.debug⟩

/-- EndpointCaller.__finish_result (src/rosette/api.py lines 353-369):
status 200 returns the parsed body; otherwise the message field, or
failing that the code field, becomes the response message of a
RosetteException whose status is the HTTP code — and when the body has
neither key, the bare dict subscript for code raises a KeyError. -/
def EndpointCaller.finishResult (suburl : Option String) (r : ReturnObject)
    (ename : String) : Except PyErr PyDict :=
  if r.status_code = 200 then .ok r.json
  else
    let complaint_url :=
      match suburl with
      | none => "Top level info"
      | some s => ename ++ " " ++ s
    match pyDictGet r.json "message", pyDictGet r.json "code" with
    | some msg, _ =>
        .error (.rosette (.num (r.status_code : Int))
          (some (.str (complaint_url ++ " : failed to communicate with Rosette"))) msg)
    | none, some msg =>
        .error (.rosette (.num (r.status_code : Int))
          (some (.str (complaint_url ++ " : failed to communicate with Rosette"))) msg)
    | none, none => .error (.keyError "code")

/-- The headers dict built at src/rosette/api.py lines 435-439: empty,
or the user key plus the binding identification headers. -/
def authHeaders (user_key : Option String) : PyDict :=
  match user_key with
  | some k =>
      [("X-RosetteAPI-Key", .str k), ("X-RosetteAPI-Binding", .str "python"),
       ("X-RosetteAPI-Binding-Version", .str BINDING_VERSION)]
  | none => []

/-- os.path.basename for POSIX paths: the part after the last slash
(byte value 47). -/
def basename (path : String) : String :=
  String.mk ((path.data.reverse.takeWhile (fun c => c ≠ Char.ofNat 47)).reverse)

/-- A multipart part as built at src/rosette/api.py lines 445-454:
file name, content and content type, keyed by part name. -/
abbrev MultipartFiles := List (String × (String × PyVal × String))

/-- Which transport path a call used and with what payload: a single
multipart send through requests.Session (src/rosette/api.py lines
455-459), or a POST through the retrying _make_request path with its
event trace, or no send at all (the call failed locally first). -/
inductive CallTrace where
  | multipartSend (url : String) (headers : PyDict) (files : MultipartFiles)
  | retryingPost (url : String) (sentData : Option String) (events : List Ev)
  | noSend

/-- The body of EndpointCaller.call after the plain-string wrapping
(src/rosette/api.py lines 432-472): serialize the parameters, build
the auth headers, then either build and send the two-part multipart
request once through requests.Session, or set the JSON headers and go
through the retrying _post_http path; either way the response is
interpreted by __finish_result.  The network is mocked by responses
(the retrying path) and mpResponse (the single multipart send). -/
def EndpointCaller.callParams (loads : Bytes → Option PyDict) (dumps : PyDict → String)
    (gunzip : Bytes → Bytes) (cfg : APIConfig) (responses : Nat → HttpResponse)
    (mpResponse : HttpResponse) (connAlive : Bool) (ec : EndpointCaller)
    (p : ParamSet) : Except PyErr PyDict × CallTrace :=
  let url := ec.service_url ++ ec.suburl.getD ""
  match p.serialize with
  | .error e => (.error e, .noSend)
  | .ok params_to_serialize =>
    let headers := authHeaders ec.user_key
    if p.useMultipart then
      let params := params_to_serialize.filter (fun kv => kv.1 == "language")
      match pyDictGet params_to_serialize "content" with
      | none => (.error (.keyError "content"), .noSend)
      | some content =>
        let files : MultipartFiles :=
          [("content", (basename p.file_name, content, "text/plain")),
           ("request", ("request_options", .str (dumps params), "application/json"))]
        let tr := CallTrace.multipartSend url headers files
        let response_headers := respHeadersDict mpResponse.headers
        match myLoads loads mpResponse.body response_headers with
        | .error e => (.error e, tr)
        | .ok js =>
            (EndpointCaller.finishResult ec.suburl ⟨js, mpResponse.status⟩ "operate", tr)
    else
      let headers := if ec.debug then pyDictSet headers "X-RosetteAPI-Devel" (.bool true)
                     else headers
      let headers := pyDictSet headers "Accept" (.str "application/json")
      let headers := pyDictSet headers "Accept-Encoding" (.str "gzip")
      let headers := pyDictSet headers "Content-Type" (.str "application/json")
      let out := API.postHttp loads dumps gunzip cfg responses connAlive url
        (some params_to_serialize) headers
      let tr := CallTrace.retryingPost url out.2.sentData out.2.events
      match out.1 with
      | .error e => (.error e, tr)
      | .ok r => (EndpointCaller.finishResult ec.suburl r "operate", tr)

/-- The caller-facing input of EndpointCaller.call: a plain string or
a parameter container. -/
inductive CallInput where
  | str (text : String)
  | params (p : ParamSet)

/-- EndpointCaller.call (src/rosette/api.py lines 401-472).  An input
that is not a parameter container is wrapped as the content field of a
fresh DocumentParameters unless the endpoint is name-similarity or
name-translation, in which case an incompatible RosetteException naming
the sub-path is raised. -/
def EndpointCaller.call (loads : Bytes → Option PyDict) (dumps : PyDict → String)
    (gunzip : Bytes → Bytes) (cfg : APIConfig) (responses : Nat → HttpResponse)
    (mpResponse : HttpResponse) (connAlive : Bool) (ec : EndpointCaller)
    (input : CallInput) : Except PyErr PyDict × CallTrace :=
  match input with
  | .params p =>
      EndpointCaller.callParams loads dumps gunzip cfg responses mpResponse connAlive ec p
  | .str text =>
      if ec.suburl ≠ some "name-similarity" ∧ ec.suburl ≠ some "name-translation" then
        match (ParamSet.init .document).setItem "content" (some (.str text)) with
        | .ok p =>
            EndpointCaller.callParams loads dumps gunzip cfg responses mpResponse connAlive ec p
        | .error e => (.error e, .noSend)
      else
        (.error (.rosette (.str "incompatible")
          (some (.str "Text-only input only works for DocumentParameter endpoints"))
          (match ec.suburl with | some s => .str s | none => .null)), .noSend)

/-! Concrete instances used by the witness and counterexample theorems. -/

def oLoadsNone : Bytes → Option PyDict := fun _ => none

def oDumps : PyDict → String := fun _ => ""

def oGunzip : Bytes → Bytes := fun _ => [111, 107]

def o4Loads : Bytes → Option PyDict :=
  fun b => if b = [111, 107] then some [("ok", .bool true)] else none

def oCfg : APIConfig := API.init none "https://api.example.com" 5 true (1 / 2) false

def oCfg1 : APIConfig := API.init none "https://api.example.com/" 1 true 0 false

def oResp429Twice : Nat → HttpResponse
  | 0 => ⟨429, [1], []⟩
  | 1 => ⟨429, [2], []⟩
  | _ => ⟨200, [3], []⟩

def oRespAll429 : Nat → HttpResponse := fun j => ⟨429, [j], []⟩

def oResp500 : Nat → HttpResponse := fun _ => ⟨500, [110, 111], []⟩

def oRespMagic3 : Nat → HttpResponse := fun _ => ⟨200, [31, 139, 8], []⟩

def oRespMagic4 : Nat → HttpResponse := fun _ => ⟨200, [31, 139, 8, 0], [("h", "v")]⟩

def oMpResponse : HttpResponse := ⟨200, [], []⟩

def oEcEntities : EndpointCaller :=
  ⟨"https://api.example.com/", some "key", some "entities", false⟩

def oEcNameSim : EndpointCaller :=
  ⟨"https://api.example.com/", some "key", some "name-similarity", false⟩

def oDocMultipart : ParamSet :=
  ⟨.document,
   [("content", some (.bytes [104, 105])), ("contentUri", none),
    ("language", some (.str "eng")), ("genre", none)], "a/b.txt", true⟩

def oDocBoth : ParamSet :=
  ⟨.document,
   [("content", some (.str "c")), ("contentUri", some (.str "u")),
    ("language", none), ("genre", none)], "", false⟩

def oDocContentOnly : ParamSet :=
  ⟨.document,
   [("content", some (.str "c")), ("contentUri", none),
    ("language", none), ("genre", none)], "", false⟩

def oReturn404 : ReturnObject := ⟨[("responseHeaders", .null)], 404⟩

def o2Loads : Bytes → Option PyDict :=
  fun _ => some [("message", .str "not found"), ("code", .str "resourceNotFound")]

/-! Helper lemmas. -/

theorem find?_map_setKey (l : List (String × Option PyVal)) (key : String) (val : Option PyVal)
    (h : l.any (fun kv => kv.1 == key) = true) :
    (l.map (fun kv => if kv.1 == key then (key, val) else kv)).find?
        (fun kv => kv.1 == key) = some (key, val) := by
  induction l with
  | nil => simp at h
  | cons a t ih =>
    rw [List.map_cons]
    cases hak : a.1 == key with
    | true =>
        rw [show (if true = true then (key, val) else a) = (key, val) from rfl]
        rw [List.find?_cons_of_pos _ (by simp)]
    | false =>
        rw [show (if false = true then (key, val) else a) = a from rfl]
        rw [List.find?_cons_of_neg _ (by simp [hak])]
        simp only [List.any_cons, hak, Bool.false_or] at h
        exact ih h

theorem mem_baseSerialize_iff (p : ParamSet) (k : String) (v : PyVal) :
    (k, v) ∈ p.baseSerialize ↔ (k, some v) ∈ p.params := by
  unfold ParamSet.baseSerialize
  rw [List.mem_filterMap]
  constructor
  · rintro ⟨⟨k2, ov⟩, hm, hf⟩
    cases ov with
    | none => exact absurd hf (by simp)
    | some w =>
        have hkw : k2 = k ∧ w = v := by simpa using hf
        obtain ⟨rfl, rfl⟩ := hkw
        exact hm
  · intro h
    exact ⟨(k, some v), h, rfl⟩

/-! Claim theorems for the parameter containers and response
interpretation. -/

/-- Claim C9: for every parameter container and every key in its
recognized key set, setting then reading the key returns the set
value; for every key outside the recognized set, both the set and the
read operation fail with the badKey RosetteException naming the
offending key. -/
theorem c9_set_get_roundtrip_and_badKey (p : ParamSet) (key : String) (val : Option PyVal) :
    (p.params.any (fun kv => kv.1 == key) = true →
      ∃ q, p.setItem key val = .ok q ∧ q.getItem key = .ok val)
    ∧ (p.params.any (fun kv => kv.1 == key) = false →
      p.setItem key val = .error (badKeyError key)
        ∧ p.getItem key = .error (badKeyError key)) := by
  constructor
  · intro h
    refine ⟨⟨p.kind, p.params.map (fun kv => if kv.1 == key then (key, val) else kv),
        p.file_name, p.useMultipart⟩, ?_, ?_⟩
    · simp [ParamSet.setItem, h]
    · show (match List.find? (fun kv => kv.1 == key)
          (p.params.map (fun kv => if kv.1 == key then (key, val) else kv)) with
        | some kv => Except.ok kv.2
        | none => Except.error (badKeyError key)) = Except.ok val
      rw [find?_map_setKey p.params key val h]
  · intro h
    have hf : p.params.find? (fun kv => kv.1 == key) = none := by
      rw [List.find?_eq_none]
      intro x hx hpx
      have hany : p.params.any (fun kv => kv.1 == key) = true :=
        List.any_eq_true.mpr ⟨x, hx, hpx⟩
      rw [hany] at h
      exact absurd h (by simp)
    constructor
    · simp [ParamSet.setItem, h]
    · simp [ParamSet.getItem, hf]

/-- Witness for C9 at a concrete document container: the recognized
key content round-trips, the unrecognized key bogus fails both ways. -/
theorem c9_witness :
    ((ParamSet.init .document).params.any (fun kv => kv.1 == "content") = true
      ∧ ∃ q, (ParamSet.init .document).setItem "content" (some (.str "abc")) = .ok q
          ∧ q.getItem "content" = .ok (some (.str "abc")))
    ∧ ((ParamSet.init .document).params.any (fun kv => kv.1 == "bogus") = false
      ∧ (ParamSet.init .document).setItem "bogus" (some (.str "abc"))
            = .error (badKeyError "bogus")
        ∧ (ParamSet.init .document).getItem "bogus" = .error (badKeyError "bogus")) :=
  ⟨⟨by decide, (c9_set_get_roundtrip_and_badKey _ _ _).1 (by decide)⟩,
   ⟨by decide, (c9_set_get_roundtrip_and_badKey _ _ _).2 (by decide)⟩⟩

/-- Claim C7: serialize on a document parameter container fails with
the badArgument RosetteException when both of content and contentUri
are set and when neither is; when exactly one is set it succeeds, and
the returned mapping holds exactly the recognized keys whose values
are non-absent (absent keys omitted). -/
theorem c7_document_serialize_content_xor (p : ParamSet) (hk : p.kind = .document) :
    (∀ vc vu, p.getItem "content" = .ok (some vc) → p.getItem "contentUri" = .ok (some vu) →
      p.serialize = .error (.rosette (.str "badArgument")
        (some (.str "Cannot supply both Content and ContentUri")) (.str "bad arguments")))
    ∧ (p.getItem "content" = .ok none → p.getItem "contentUri" = .ok none →
      p.serialize = .error (.rosette (.str "badArgument")
        (some (.str "Must supply one of Content or ContentUri")) (.str "bad arguments")))
    ∧ (∀ vc, p.getItem "content" = .ok (some vc) → p.getItem "contentUri" = .ok none →
      ∃ d, p.serialize = .ok d ∧ ∀ k v, ((k, v) ∈ d ↔ (k, some v) ∈ p.params))
    ∧ (∀ vu, p.getItem "content" = .ok none → p.getItem "contentUri" = .ok (some vu) →
      ∃ d, p.serialize = .ok d ∧ ∀ k v, ((k, v) ∈ d ↔ (k, some v) ∈ p.params)) := by
  refine ⟨?_, ?_, ?_, ?_⟩
  · intro vc vu h1 h2
    simp [ParamSet.serialize, ParamSet.validate, hk, documentValidate, h1, h2]
  · intro h1 h2
    simp [ParamSet.serialize, ParamSet.validate, hk, documentValidate, h1, h2]
  · intro vc h1 h2
    refine ⟨p.baseSerialize, ?_, fun k v => mem_baseSerialize_iff p k v⟩
    simp [ParamSet.serialize, ParamSet.validate, hk, documentValidate, h1, h2]
  · intro vu h1 h2
    refine ⟨p.baseSerialize, ?_, fun k v => mem_baseSerialize_iff p k v⟩
    simp [ParamSet.serialize, ParamSet.validate, hk, documentValidate, h1, h2]

/-- Witness for C7: a container with both fields set fails with
badArgument, one with only content set serializes to the dict of its
non-absent keys. -/
theorem c7_witness :
    oDocBoth.getItem "content" = .ok (some (.str "c"))
    ∧ oDocBoth.getItem "contentUri" = .ok (some (.str "u"))
    ∧ oDocBoth.serialize = .error (.rosette (.str "badArgument")
        (some (.str "Cannot supply both Content and ContentUri")) (.str "bad arguments"))
    ∧ ∃ d, oDocContentOnly.serialize = .ok d
        ∧ ∀ k v, ((k, v) ∈ d ↔ (k, some v) ∈ oDocContentOnly.params) :=
  ⟨rfl, rfl,
   (c7_document_serialize_content_xor oDocBoth rfl).1 (.str "c") (.str "u") rfl rfl,
   (c7_document_serialize_content_xor oDocContentOnly rfl).2.2.1 (.str "c") rfl rfl⟩

/-- Claim C8: serialize on a name-translation container fails with a
missingParameter RosetteException naming the missing field unless both
name and targetLanguage are set (in which case it succeeds); likewise
a name-similarity container requires both name1 and name2. -/
theorem c8_name_params_require_fields :
    (∀ p : ParamSet, p.kind = .nameTranslation →
      (p.getItem "name" = .ok none →
        p.serialize = .error (.rosette (.str "missingParameter")
          (some (.str "Required Name Translation parameter not supplied"))
          (.str (pyReprStr "name"))))
      ∧ (∀ v, p.getItem "name" = .ok (some v) → p.getItem "targetLanguage" = .ok none →
        p.serialize = .error (.rosette (.str "missingParameter")
          (some (.str "Required Name Translation parameter not supplied"))
          (.str (pyReprStr "targetLanguage"))))
      ∧ (∀ v w, p.getItem "name" = .ok (some v) → p.getItem "targetLanguage" = .ok (some w) →
        p.serialize = .ok p.baseSerialize))
    ∧ (∀ p : ParamSet, p.kind = .nameSimilarity →
      (p.getItem "name1" = .ok none →
        p.serialize = .error (.rosette (.str "missingParameter")
          (some (.str "Required Name Similarity parameter not supplied"))
          (.str (pyReprStr "name1"))))
      ∧ (∀ v, p.getItem "name1" = .ok (some v) → p.getItem "name2" = .ok none →
        p.serialize = .error (.rosette (.str "missingParameter")
          (some (.str "Required Name Similarity parameter not supplied"))
          (.str (pyReprStr "name2"))))
      ∧ (∀ v w, p.getItem "name1" = .ok (some v) → p.getItem "name2" = .ok (some w) →
        p.serialize = .ok p.baseSerialize)) := by
  constructor
  · intro p hk
    refine ⟨?_, ?_, ?_⟩
    · intro h1
      simp [ParamSet.serialize, ParamSet.validate, hk, requiredValidate, h1]
    · intro v h1 h2
      simp [ParamSet.serialize, ParamSet.validate, hk, requiredValidate, h1, h2]
    · intro v w h1 h2
      simp [ParamSet.serialize, ParamSet.validate, hk, requiredValidate, h1, h2]
  · intro p hk
    refine ⟨?_, ?_, ?_⟩
    · intro h1
      simp [ParamSet.serialize, ParamSet.validate, hk, requiredValidate, h1]
    · intro v h1 h2
      simp [ParamSet.serialize, ParamSet.validate, hk, requiredValidate, h1, h2]
    · intro v w h1 h2
      simp [ParamSet.serialize, ParamSet.validate, hk, requiredValidate, h1, h2]

/-- Witness for C8: fresh name containers with the required fields
absent fail naming the first missing field. -/
theorem c8_witness :
    (ParamSet.init .nameTranslation).getItem "name" = .ok none
    ∧ (ParamSet.init .nameTranslation).serialize
        = .error (.rosette (.str "missingParameter")
            (some (.str "Required Name Translation parameter not supplied"))
            (.str (pyReprStr "name")))
    ∧ (ParamSet.init .nameSimilarity).getItem "name1" = .ok none
    ∧ (ParamSet.init .nameSimilarity).serialize
        = .error (.rosette (.str "missingParameter")
            (some (.str "Required Name Similarity parameter not supplied"))
            (.str (pyReprStr "name1"))) :=
  ⟨rfl, (c8_name_params_require_fields.1 _ rfl).1 rfl,
   rfl, (c8_name_params_require_fields.2 _ rfl).1 rfl⟩

/-- Claim C10: on a non-200 response whose parsed body has neither a
message nor a code key, __finish_result raises a bare KeyError from
the dict subscript — not the RosetteException used for every other
local and remote error. -/
theorem c10_finish_result_keyerror (suburl : Option String) (r : ReturnObject)
    (ename : String) (h200 : r.status_code ≠ 200)
    (hm : pyDictGet r.json "message" = none)
    (hc : pyDictGet r.json "code" = none) :
    EndpointCaller.finishResult suburl r ename = .error (.keyError "code")
    ∧ ∀ s m rm, PyErr.keyError "code" ≠ PyErr.rosette s m rm := by
  constructor
  · simp [EndpointCaller.finishResult, h200, hm, hc]
  · intro s m rm h
    exact PyErr.noConfusion h

/-- Witness for C10: a 404 body holding only the injected
responseHeaders key makes __finish_result raise the KeyError. -/
theorem c10_witness :
    oReturn404.status_code ≠ 200
    ∧ pyDictGet oReturn404.json "message" = none
    ∧ pyDictGet oReturn404.json "code" = none
    ∧ EndpointCaller.finishResult none oReturn404 "info" = .error (.keyError "code")
    ∧ ∀ s m rm, PyErr.keyError "code" ≠ PyErr.rosette s m rm :=
  ⟨by decide, rfl, rfl,
   (c10_finish_result_keyerror none oReturn404 "info" (by decide) rfl rfl).1,
   (c10_finish_result_keyerror none oReturn404 "info" (by decide) rfl rfl).2⟩

/-! Unfolding lemmas for the attempt loop. -/

theorem makeRequestLoop_zero (loads : Bytes → Option PyDict) (url : String)
    (responses : Nat → HttpResponse) (refresh : ℚ) (reuse : Bool)
    (i : Nat) (code : PyVal) (message : Option PyVal) :
    API.makeRequestLoop loads url responses refresh reuse i 0 code message =
      (.error (.rosette code message (.str url)),
       if reuse then [] else [.closeConn]) := rfl

theorem makeRequestLoop_succ_200 (loads : Bytes → Option PyDict) (url : String)
    (responses : Nat → HttpResponse) (refresh : ℚ) (reuse : Bool)
    (i fuel : Nat) (code : PyVal) (message : Option PyVal)
    (h : (responses i).status = 200) :
    API.makeRequestLoop loads url responses refresh reuse i (fuel + 1) code message =
      (.ok ((responses i).body, (responses i).status, respHeadersDict (responses i).headers),
       if reuse then [] else [.closeConn]) := by
  rw [API.makeRequestLoop]
  simp [h]

theorem makeRequestLoop_succ_429 (loads : Bytes → Option PyDict) (url : String)
    (responses : Nat → HttpResponse) (refresh : ℚ) (reuse : Bool)
    (i fuel : Nat) (code : PyVal) (message : Option PyVal)
    (h : (responses i).status = 429) :
    API.makeRequestLoop loads url responses refresh reuse i (fuel + 1) code message =
      ((API.makeRequestLoop loads url responses refresh reuse (i + 1) fuel
          (.num 429) (some (.str (format429 (responses i).body i)))).1,
       .sleep refresh :: .closeConn :: .connect ::
         (API.makeRequestLoop loads url responses refresh reuse (i + 1) fuel
           (.num 429) (some (.str (format429 (responses i).body i)))).2) := by
  rw [API.makeRequestLoop]
  simp [h]

theorem makeRequestLoop_succ_other_none (loads : Bytes → Option PyDict) (url : String)
    (responses : Nat → HttpResponse) (refresh : ℚ) (reuse : Bool)
    (i fuel : Nat) (code : PyVal) (message : Option PyVal)
    (h200 : (responses i).status ≠ 200) (h429 : (responses i).status ≠ 429)
    (hl : loads (responses i).body = none) :
    API.makeRequestLoop loads url responses refresh reuse i (fuel + 1) code message =
      (.error .jsonDecode, []) := by
  rw [API.makeRequestLoop]
  simp [h200, h429, hl]

theorem makeRequestLoop_succ_other_some (loads : Bytes → Option PyDict) (url : String)
    (responses : Nat → HttpResponse) (refresh : ℚ) (reuse : Bool)
    (i fuel : Nat) (code : PyVal) (message : Option PyVal) (d : PyDict)
    (h200 : (responses i).status ≠ 200) (h429 : (responses i).status ≠ 429)
    (hl : loads (responses i).body = some d) :
    API.makeRequestLoop loads url responses refresh reuse i (fuel + 1) code message =
      (.error (.rosette
         (match pyDictGet (pyDictUpdate d (respHeadersDict (responses i).headers)) "code" with
          | some v => v
          | none => .num ((responses i).status : Int))
         (match pyDictGet (pyDictUpdate d (respHeadersDict (responses i).headers)) "message" with
          | some v => some v
          | none => message)
         (.str url)), []) := by
  rw [API.makeRequestLoop]
  simp [h200, h429, hl]

theorem makeRequestLoop_all_429 (loads : Bytes → Option PyDict) (url : String)
    (responses : Nat → HttpResponse) (refresh : ℚ) (reuse : Bool) :
    ∀ (fuel i : Nat) (code : PyVal) (message : Option PyVal),
      (∀ j, i ≤ j → j ≤ i + fuel → (responses j).status = 429) →
      (API.makeRequestLoop loads url responses refresh reuse i (fuel + 1) code message).1 =
        .error (.rosette (.num 429)
          (some (.str (format429 (responses (i + fuel)).body (i + fuel)))) (.str url)) := by
  intro fuel
  induction fuel with
  | zero =>
      intro i code message h
      rw [makeRequestLoop_succ_429 _ _ _ _ _ _ _ _ _ (h i le_rfl (by omega))]
      show (API.makeRequestLoop loads url responses refresh reuse (i + 1) 0
          (.num 429) (some (.str (format429 (responses i).body i)))).1 = _
      rw [makeRequestLoop_zero]
      simp
  | succ f ih =>
      intro i code message h
      rw [makeRequestLoop_succ_429 _ _ _ _ _ _ _ _ _ (h i le_rfl (by omega))]
      show (API.makeRequestLoop loads url responses refresh reuse (i + 1) (f + 1)
          (.num 429) (some (.str (format429 (responses i).body i)))).1 = _
      rw [ih (i + 1) (.num 429) (some (.str (format429 (responses i).body i)))
        (fun j hj1 hj2 => h j (by omega) (by omega))]
      have heq : i + 1 + f = i + (f + 1) := by omega
      rw [heq]

/-! Counting sleeps in event traces. -/

theorem sleepCount_append (a b : List Ev) :
    sleepCount (a ++ b) = sleepCount a + sleepCount b := by
  simp [sleepCount, List.countP_append]

theorem sleepCount_cons_sleep (d : ℚ) (evs : List Ev) :
    sleepCount (Ev.sleep d :: evs) = sleepCount evs + 1 := by
  simp [sleepCount, List.countP_cons]

theorem sleepCount_cons_close (evs : List Ev) :
    sleepCount (Ev.closeConn :: evs) = sleepCount evs := by
  simp [sleepCount, List.countP_cons]

theorem sleepCount_cons_connect (evs : List Ev) :
    sleepCount (Ev.connect :: evs) = sleepCount evs := by
  simp [sleepCount, List.countP_cons]

theorem sleepCount_ifConnect (c : Prop) [Decidable c] :
    sleepCount (if c then [Ev.connect] else []) = 0 := by
  split <;> rfl

theorem sleepCount_ifClose (c : Prop) [Decidable c] :
    sleepCount (if c then [] else [Ev.closeConn]) = 0 := by
  split <;> rfl

/-- Claim C1: when an attempt gets status 429 the loop records the
status as the code and the body (with the attempt index) as the
diagnostic message, sleeps for the configured refresh duration, closes
the connection, calls _connect, and continues with the next attempt;
in particular, against a transport answering 429 twice and then 200,
the request succeeds with the 200 body and exactly two inter-retry
sleeps occur. -/
theorem c1_retry_on_429 :
    (∀ (loads : Bytes → Option PyDict) (url : String) (responses : Nat → HttpResponse)
       (refresh : ℚ) (reuse : Bool) (i fuel : Nat) (code : PyVal) (message : Option PyVal),
      (responses i).status = 429 →
      API.makeRequestLoop loads url responses refresh reuse i (fuel + 1) code message =
        ((API.makeRequestLoop loads url responses refresh reuse (i + 1) fuel
            (.num 429) (some (.str (format429 (responses i).body i)))).1,
         .sleep refresh :: .closeConn :: .connect ::
           (API.makeRequestLoop loads url responses refresh reuse (i + 1) fuel
             (.num 429) (some (.str (format429 (responses i).body i)))).2))
    ∧ (∀ (loads : Bytes → Option PyDict) (cfg : APIConfig) (responses : Nat → HttpResponse)
       (connAlive : Bool) (op url : String) (data : Option String) (headers : PyDict)
       (a b c : Bytes) (hA hB hC : List (String × String)),
      responses 0 = ⟨429, a, hA⟩ → responses 1 = ⟨429, b, hB⟩ → responses 2 = ⟨200, c, hC⟩ →
      2 ≤ cfg.num_retries →
      (API.makeRequest loads cfg responses connAlive op url data headers).result =
          .ok (c, 200, respHeadersDict hC)
        ∧ sleepCount
            (API.makeRequest loads cfg responses connAlive op url data headers).events = 2) := by
  constructor
  · intro loads url responses refresh reuse i fuel code message h
    exact makeRequestLoop_succ_429 loads url responses refresh reuse i fuel code message h
  · intro loads cfg responses connAlive op url data headers a b c hA hB hC h0 h1 h2 hr
    have h429a : (responses 0).status = 429 := by rw [h0]
    have h429b : (responses 1).status = 429 := by rw [h1]
    have h200c : (responses 2).status = 200 := by rw [h2]
    obtain ⟨k, hk⟩ : ∃ k, cfg.num_retries + 1 = ((k + 1) + 1) + 1 :=
      ⟨cfg.num_retries - 2, by omega⟩
    have hloop : API.makeRequestLoop loads url responses cfg.refresh_duration
        cfg.reuse_connection 0 (cfg.num_retries + 1) (.str "unknownError") none =
        (.ok (c, 200, respHeadersDict hC),
         .sleep cfg.refresh_duration :: .closeConn :: .connect ::
         .sleep cfg.refresh_duration :: .closeConn :: .connect ::
           (if cfg.reuse_connection = true then [] else [.closeConn])) := by
      rw [hk]
      rw [makeRequestLoop_succ_429 _ _ _ _ _ _ _ _ _ h429a]
      rw [makeRequestLoop_succ_429 _ _ _ _ _ _ _ _ _ h429b]
      rw [makeRequestLoop_succ_200 _ _ _ _ _ _ _ _ _ h200c]
      simp [h2]
    constructor
    · show (API.makeRequestLoop loads url responses cfg.refresh_duration
          cfg.reuse_connection 0 (cfg.num_retries + 1) (.str "unknownError") none).1 = _
      rw [hloop]
    · show sleepCount
          ((if cfg.reuse_connection = false ∨ connAlive = false then [Ev.connect] else []) ++
           (API.makeRequestLoop loads url responses cfg.refresh_duration
             cfg.reuse_connection 0 (cfg.num_retries + 1) (.str "unknownError") none).2) = 2
      rw [hloop, sleepCount_append, sleepCount_ifConnect, sleepCount_cons_sleep,
        sleepCount_cons_close, sleepCount_cons_connect, sleepCount_cons_sleep,
        sleepCount_cons_close, sleepCount_cons_connect, sleepCount_ifClose]

/-- Witness for C1: with the default retry budget, a transport
answering 429, 429, 200 yields the 200 body and exactly two sleeps. -/
theorem c1_witness :
    oResp429Twice 0 = ⟨429, [1], []⟩ ∧ oResp429Twice 1 = ⟨429, [2], []⟩
    ∧ oResp429Twice 2 = ⟨200, [3], []⟩ ∧ 2 ≤ oCfg.num_retries
    ∧ (API.makeRequest oLoadsNone oCfg oResp429Twice true "POST"
          "https://api.example.com/entities" (some "") []).result =
        .ok ([3], 200, respHeadersDict [])
    ∧ sleepCount (API.makeRequest oLoadsNone oCfg oResp429Twice true "POST"
          "https://api.example.com/entities" (some "") []).events = 2 := by
  have h := c1_retry_on_429.2 oLoadsNone oCfg oResp429Twice true "POST"
    "https://api.example.com/entities" (some "") [] [1] [2] [3] [] [] []
    rfl rfl rfl (by decide)
  exact ⟨rfl, rfl, rfl, by decide, h.1, h.2⟩

/-- Claim C3: when every attempt of the retry loop gets a 429, the
request fails with a RosetteException carrying the 429 code and the
diagnostic message recorded from the last 429 response; a client
constructed with retries 1 has a retry budget of exactly 1 (two
attempts). -/
theorem c3_exhausted_429_raises_last (loads : Bytes → Option PyDict) (cfg : APIConfig)
    (responses : Nat → HttpResponse) (connAlive : Bool) (op url : String)
    (data : Option String) (headers : PyDict)
    (hall : ∀ j, j ≤ cfg.num_retries → (responses j).status = 429) :
    ((API.makeRequest loads cfg responses connAlive op url data headers).result =
      .error (.rosette (.num 429)
        (some (.str (format429 (responses cfg.num_retries).body cfg.num_retries)))
        (.str url)))
    ∧ ∀ (u : Option String) (s : String) (r : Bool) (q : ℚ) (b : Bool),
        (API.init u s 1 r q b).num_retries = 1 := by
  constructor
  · show (API.makeRequestLoop loads url responses cfg.refresh_duration
        cfg.reuse_connection 0 (cfg.num_retries + 1) (.str "unknownError") none).1 = _
    have h := makeRequestLoop_all_429 loads url responses cfg.refresh_duration
      cfg.reuse_connection cfg.num_retries 0 (.str "unknownError") none
      (fun j _ hj => hall j (by omega))
    simpa using h
  · intro u s r q b
    rfl

/-- Witness for C3: with retries 1 and a transport always answering
429, the failure carries the message recorded from attempt 1, the
last one. -/
theorem c3_witness :
    oCfg1.num_retries = 1
    ∧ (∀ j, j ≤ oCfg1.num_retries → (oRespAll429 j).status = 429)
    ∧ (API.makeRequest oLoadsNone oCfg1 oRespAll429 true "POST"
          "https://api.example.com/entities" (some "") []).result =
        .error (.rosette (.num 429)
          (some (.str (format429 [1] 1)))
          (.str "https://api.example.com/entities")) :=
  ⟨rfl, fun _ _ => rfl,
   (c3_exhausted_429_raises_last oLoadsNone oCfg1 oRespAll429 true "POST"
      "https://api.example.com/entities" (some "") [] (fun _ _ => rfl)).1⟩

/-- Claim C2 (amended): an attempt with a status other than 200 and
429 terminates the loop at once — the outcome does not depend on the
remaining retry budget and no sleep, close or connect event occurs.
When the body parses as a JSON object, the failure is a
RosetteException whose code is the code field of the parsed body (the
HTTP status when that field is absent), whose message is the message
field when present (the previously recorded message otherwise), and
whose context is the request URL.  When the body is not valid JSON,
the JSON decode error itself propagates instead of a
RosetteException. -/
theorem c2_non200_non429_fails_immediately :
    (∀ (loads : Bytes → Option PyDict) (url : String) (responses : Nat → HttpResponse)
       (refresh : ℚ) (reuse : Bool) (i fuel : Nat) (code : PyVal) (message : Option PyVal)
       (d : PyDict),
      (responses i).status ≠ 200 → (responses i).status ≠ 429 →
      loads (responses i).body = some d →
      API.makeRequestLoop loads url responses refresh reuse i (fuel + 1) code message =
        (.error (.rosette
           (match pyDictGet (pyDictUpdate d (respHeadersDict (responses i).headers)) "code" with
            | some v => v
            | none => .num ((responses i).status : Int))
           (match pyDictGet (pyDictUpdate d (respHeadersDict (responses i).headers)) "message" with
            | some v => some v
            | none => message)
           (.str url)), []))
    ∧ (∀ (loads : Bytes → Option PyDict) (url : String) (responses : Nat → HttpResponse)
       (refresh : ℚ) (reuse : Bool) (i fuel : Nat) (code : PyVal) (message : Option PyVal),
      (responses i).status ≠ 200 → (responses i).status ≠ 429 →
      loads (responses i).body = none →
      API.makeRequestLoop loads url responses refresh reuse i (fuel + 1) code message =
        (.error .jsonDecode, [])) := by
  constructor
  · intro loads url responses refresh reuse i fuel code message d h200 h429 hl
    exact makeRequestLoop_succ_other_some loads url responses refresh reuse i fuel
      code message d h200 h429 hl
  · intro loads url responses refresh reuse i fuel code message h200 h429 hl
    exact makeRequestLoop_succ_other_none loads url responses refresh reuse i fuel
      code message h200 h429 hl

/-- Witness for C2 (amended): a 500 response with a JSON body holding
message and code fields fails at once with the structured error built
from those fields. -/
theorem c2_witness :
    (oResp500 0).status ≠ 200 ∧ (oResp500 0).status ≠ 429
    ∧ o2Loads (oResp500 0).body
        = some [("message", .str "not found"), ("code", .str "resourceNotFound")]
    ∧ API.makeRequestLoop o2Loads "https://api.example.com/entities" oResp500 0 true
        0 (5 + 1) (.str "unknownError") none =
      (.error (.rosette (.str "resourceNotFound") (some (.str "not found"))
         (.str "https://api.example.com/entities")), []) :=
  ⟨by decide, by decide, rfl,
   c2_non200_non429_fails_immediately.1 o2Loads "https://api.example.com/entities"
     oResp500 0 true 0 5 (.str "unknownError") none
     [("message", .str "not found"), ("code", .str "resourceNotFound")]
     (by decide) (by decide) rfl⟩

/-- Counterexample to C2 as stated: a 500 response whose body is not
valid JSON makes _make_request fail with the JSON decode error itself,
which is not a structured RosetteException, contradicting the claim
that every response body — including bodies that are not valid JSON —
produces the structured error. -/
theorem c2_counterexample :
    (API.makeRequest oLoadsNone oCfg oResp500 true "POST"
        "https://api.example.com/entities" (some "") []).result = .error .jsonDecode
    ∧ ∀ s m rm, PyErr.jsonDecode ≠ PyErr.rosette s m rm := by
  constructor
  · rfl
  · intro s m rm h
    exact PyErr.noConfusion h

/-! The POST wrapper: what it sends and how it inflates. -/

theorem postHttp_snd (loads : Bytes → Option PyDict) (dumps : PyDict → String)
    (gunzip : Bytes → Bytes) (cfg : APIConfig) (responses : Nat → HttpResponse)
    (connAlive : Bool) (url : String) (data : Option PyDict) (headers : PyDict) :
    (API.postHttp loads dumps gunzip cfg responses connAlive url data headers).2 =
      API.makeRequest loads cfg responses connAlive "POST" url
        (some (match data with | none => "" | some d => dumps d)) headers := by
  simp only [API.postHttp]
  rcases hres : (API.makeRequest loads cfg responses connAlive "POST" url
      (some (match data with | none => "" | some d => dumps d)) headers).result with
    e | ⟨rdata, status, rh⟩ <;> simp [hres]

theorem postHttp_inflates_of_magic (loads : Bytes → Option PyDict) (dumps : PyDict → String)
    (gunzip : Bytes → Bytes) (cfg : APIConfig) (responses : Nat → HttpResponse)
    (connAlive : Bool) (url : String) (data : Option PyDict) (headers : PyDict)
    (rdata : Bytes) (status : Nat) (rh : PyDict)
    (hres : (API.makeRequest loads cfg responses connAlive "POST" url
        (some (match data with | none => "" | some d => dumps d)) headers).result
      = .ok (rdata, status, rh))
    (hlen : rdata.length > 3) (htake : rdata.take 3 = gzipSignature) :
    (API.postHttp loads dumps gunzip cfg responses connAlive url data headers).1 =
      (myLoads loads (gunzip rdata) rh).map (fun js => ⟨js, status⟩) := by
  simp only [API.postHttp, hres]
  rw [if_pos ⟨hlen, htake⟩]

/-- Claim C4 (amended): the POST wrapper sends the empty string for a
None body and the JSON encoding for a non-None body; on success, raw
response bytes that are longer than three bytes and begin with the
gzip magic number are decompressed before JSON parsing; feeding a
successful gzip-compressed response whose inflation parses to the
object with key ok mapped to true yields exactly that mapping plus the
injected responseHeaders entry. -/
theorem c4_post_gzip_inflate_and_encode :
    (∀ (loads : Bytes → Option PyDict) (dumps : PyDict → String) (gunzip : Bytes → Bytes)
       (cfg : APIConfig) (responses : Nat → HttpResponse) (connAlive : Bool)
       (url : String) (headers : PyDict),
      (API.postHttp loads dumps gunzip cfg responses connAlive url none headers).2.sentData
        = some "")
    ∧ (∀ (loads : Bytes → Option PyDict) (dumps : PyDict → String) (gunzip : Bytes → Bytes)
       (cfg : APIConfig) (responses : Nat → HttpResponse) (connAlive : Bool)
       (url : String) (d : PyDict) (headers : PyDict),
      (API.postHttp loads dumps gunzip cfg responses connAlive url (some d) headers).2.sentData
        = some (dumps d))
    ∧ (∀ (loads : Bytes → Option PyDict) (dumps : PyDict → String) (gunzip : Bytes → Bytes)
       (cfg : APIConfig) (responses : Nat → HttpResponse) (connAlive : Bool)
       (url : String) (data : Option PyDict) (headers : PyDict)
       (rdata : Bytes) (status : Nat) (rh : PyDict),
      (API.makeRequest loads cfg responses connAlive "POST" url
          (some (match data with | none => "" | some d => dumps d)) headers).result
        = .ok (rdata, status, rh) →
      rdata.length > 3 → rdata.take 3 = gzipSignature →
      (API.postHttp loads dumps gunzip cfg responses connAlive url data headers).1 =
        (myLoads loads (gunzip rdata) rh).map (fun js => ⟨js, status⟩))
    ∧ (∀ (loads : Bytes → Option PyDict) (dumps : PyDict → String) (gunzip : Bytes → Bytes)
       (cfg : APIConfig) (connAlive : Bool) (url : String) (data : Option PyDict)
       (headers : PyDict) (z : Bytes) (hdrs : List (String × String)),
      z.length > 3 → z.take 3 = gzipSignature →
      loads (gunzip z) = some [("ok", .bool true)] →
      (API.postHttp loads dumps gunzip cfg (fun _ => ⟨200, z, hdrs⟩) connAlive url
          data headers).1 =
        .ok ⟨[("ok", .bool true), ("responseHeaders", headersToJson hdrs)], 200⟩) := by
  refine ⟨?_, ?_, ?_, ?_⟩
  · intro loads dumps gunzip cfg responses connAlive url headers
    rw [postHttp_snd]
    exact rfl
  · intro loads dumps gunzip cfg responses connAlive url d headers
    rw [postHttp_snd]
    exact rfl
  · intro loads dumps gunzip cfg responses connAlive url data headers rdata status rh
      hres hlen htake
    exact postHttp_inflates_of_magic loads dumps gunzip cfg responses connAlive url
      data headers rdata status rh hres hlen htake
  · intro loads dumps gunzip cfg connAlive url data headers z hdrs hlen htake hloads
    have hres : (API.makeRequest loads cfg (fun _ => ⟨200, z, hdrs⟩) connAlive "POST" url
        (some (match data with | none => "" | some d => dumps d)) headers).result
        = .ok (z, 200, respHeadersDict hdrs) := by
      show (API.makeRequestLoop loads url (fun _ => ⟨200, z, hdrs⟩) cfg.refresh_duration
          cfg.reuse_connection 0 (cfg.num_retries + 1) (.str "unknownError") none).1 = _
      rw [makeRequestLoop_succ_200 _ _ _ _ _ _ _ _ _ rfl]
    rw [postHttp_inflates_of_magic loads dumps gunzip cfg (fun _ => ⟨200, z, hdrs⟩)
      connAlive url data headers z 200 (respHeadersDict hdrs) hres hlen htake]
    have h1 : myLoads loads (gunzip z) (respHeadersDict hdrs) =
        .ok [("ok", .bool true), ("responseHeaders", headersToJson hdrs)] := by
      unfold myLoads
      rw [hloads]
      exact rfl
    rw [h1]
    exact rfl

/-- Witness for C4 at a concrete four-byte gzip body: the POST path
inflates and returns the ok mapping plus the header entry; a None body
is sent as the empty string. -/
theorem c4_witness :
    ([31, 139, 8, 0] : Bytes).length > 3
    ∧ ([31, 139, 8, 0] : Bytes).take 3 = gzipSignature
    ∧ o4Loads (oGunzip [31, 139, 8, 0]) = some [("ok", .bool true)]
    ∧ (API.postHttp o4Loads oDumps oGunzip oCfg oRespMagic4 true
          "https://api.example.com/entities" none []).1 =
        .ok ⟨[("ok", .bool true), ("responseHeaders", headersToJson [("h", "v")])], 200⟩
    ∧ (API.postHttp o4Loads oDumps oGunzip oCfg oRespMagic4 true
          "https://api.example.com/entities" none []).2.sentData = some "" :=
  ⟨by decide, rfl, rfl,
   c4_post_gzip_inflate_and_encode.2.2.2 o4Loads oDumps oGunzip oCfg true
     "https://api.example.com/entities" none [] [31, 139, 8, 0] [("h", "v")]
     (by decide) rfl rfl,
   c4_post_gzip_inflate_and_encode.1 o4Loads oDumps oGunzip oCfg oRespMagic4 true
     "https://api.example.com/entities" []⟩

/-- Counterexample to C4 as stated: a successful response whose body
is exactly the three magic bytes begins with the gzip magic number,
and its inflation would parse to the ok mapping, yet the POST path
does not decompress it (the source also requires the body to be longer
than three bytes) and instead fails parsing the raw bytes. -/
theorem c4_counterexample :
    (oRespMagic3 0).body.take 3 = gzipSignature
    ∧ o4Loads (oGunzip (oRespMagic3 0).body) = some [("ok", .bool true)]
    ∧ (API.postHttp o4Loads oDumps oGunzip oCfg oRespMagic3 true
          "https://api.example.com/entities" none []).1 = .error .jsonDecode
    ∧ ∀ js, (Except.error PyErr.jsonDecode : Except PyErr ReturnObject) ≠ .ok js := by
  refine ⟨rfl, rfl, rfl, ?_⟩
  intro js h
  exact Except.noConfusion h

/-- Claim C5: loading a file into a document container sets multipart
mode, remembers the path, and stores the raw file bytes as content;
and for every container in multipart mode whose serialization
succeeds, call builds a multipart request of exactly two parts — a
content file part carrying the raw bytes under the file's basename
with content type text/plain, and a request JSON part encoding the
serialized parameters restricted to the language key (present only
when that field is set) — and sends it once through the
requests.Session path, not the retrying _make_request path. -/
theorem c5_multipart_builds_two_parts :
    (∀ (fs : String → Bytes) (path : String),
      ∃ p0, ParamSet.load_document_file fs (ParamSet.init .document) path = .ok p0
        ∧ p0.useMultipart = true ∧ p0.file_name = path
        ∧ p0.getItem "content" = .ok (some (.bytes (fs path))))
    ∧ (∀ (loads : Bytes → Option PyDict) (dumps : PyDict → String) (gunzip : Bytes → Bytes)
       (cfg : APIConfig) (responses : Nat → HttpResponse) (mpResponse : HttpResponse)
       (connAlive : Bool) (ec : EndpointCaller) (p : ParamSet) (d : PyDict) (content : PyVal),
      p.useMultipart = true → p.serialize = .ok d → pyDictGet d "content" = some content →
      ((EndpointCaller.call loads dumps gunzip cfg responses mpResponse connAlive ec
          (.params p)).2 =
        .multipartSend (ec.service_url ++ ec.suburl.getD "") (authHeaders ec.user_key)
          [("content", (basename p.file_name, content, "text/plain")),
           ("request", ("request_options",
              .str (dumps (d.filter (fun kv => kv.1 == "language"))), "application/json"))])
      ∧ ∀ kv, kv ∈ d.filter (fun kv => kv.1 == "language") ↔ (kv ∈ d ∧ kv.1 = "language")) := by
  constructor
  · intro fs path
    refine ⟨⟨.document,
      [("content", some (.bytes (fs path))), ("contentUri", none),
       ("language", none), ("genre", none)], path, true⟩, ?_, rfl, rfl, ?_⟩
    · exact rfl
    · exact rfl
  · intro loads dumps gunzip cfg responses mpResponse connAlive ec p d content
      hmp hser hcontent
    constructor
    · have hcall : EndpointCaller.call loads dumps gunzip cfg responses mpResponse
          connAlive ec (.params p)
          = EndpointCaller.callParams loads dumps gunzip cfg responses mpResponse
            connAlive ec p := rfl
      rw [hcall]
      simp only [EndpointCaller.callParams, hser, hmp, if_true]
      simp only [hcontent]
      rcases hml : myLoads loads mpResponse.body (respHeadersDict mpResponse.headers) with
        e | js <;> simp [hml]
    · intro kv
      simp [List.mem_filter]

/-- Witness for C5: a file-loaded container with a language set makes
call send one multipart request whose content part carries the file
bytes under basename b.txt and whose request part encodes only the
language binding. -/
theorem c5_witness :
    oDocMultipart.useMultipart = true
    ∧ oDocMultipart.serialize = .ok [("content", .bytes [104, 105]), ("language", .str "eng")]
    ∧ pyDictGet [("content", .bytes [104, 105]), ("language", .str "eng")] "content"
        = some (.bytes [104, 105])
    ∧ ((EndpointCaller.call oLoadsNone oDumps oGunzip oCfg oResp500 oMpResponse true
          oEcEntities (.params oDocMultipart)).2 =
        .multipartSend "https://api.example.com/entities"
          [("X-RosetteAPI-Key", .str "key"), ("X-RosetteAPI-Binding", .str "python"),
           ("X-RosetteAPI-Binding-Version", .str "1.1")]
          [("content", ("b.txt", .bytes [104, 105], "text/plain")),
           ("request", ("request_options", .str "", "application/json"))])
    ∧ ∀ kv, kv ∈ [("language", PyVal.str "eng")] ↔
        (kv ∈ [("content", PyVal.bytes [104, 105]), ("language", PyVal.str "eng")]
          ∧ kv.1 = "language") := by
  have h := c5_multipart_builds_two_parts.2 oLoadsNone oDumps oGunzip oCfg oResp500
    oMpResponse true oEcEntities oDocMultipart
    [("content", .bytes [104, 105]), ("language", .str "eng")] (.bytes [104, 105])
    rfl rfl rfl
  exact ⟨rfl, rfl, rfl, h.1, h.2⟩

/-- Claim C6: a plain-string argument on an endpoint other than
name-similarity and name-translation is wrapped as the content field
of a fresh document container and the call proceeds with it; on
name-similarity or name-translation the call fails with the
incompatible RosetteException whose context is the endpoint sub-path. -/
theorem c6_string_wraps_or_incompatible :
    (∀ (loads : Bytes → Option PyDict) (dumps : PyDict → String) (gunzip : Bytes → Bytes)
       (cfg : APIConfig) (responses : Nat → HttpResponse) (mpResponse : HttpResponse)
       (connAlive : Bool) (ec : EndpointCaller) (text : String),
      ec.suburl ≠ some "name-similarity" → ec.suburl ≠ some "name-translation" →
      ∃ p, (ParamSet.init .document).setItem "content" (some (.str text)) = .ok p
        ∧ p.getItem "content" = .ok (some (.str text))
        ∧ EndpointCaller.call loads dumps gunzip cfg responses mpResponse connAlive ec
            (.str text) =
          EndpointCaller.callParams loads dumps gunzip cfg responses mpResponse connAlive ec p)
    ∧ (∀ (loads : Bytes → Option PyDict) (dumps : PyDict → String) (gunzip : Bytes → Bytes)
       (cfg : APIConfig) (responses : Nat → HttpResponse) (mpResponse : HttpResponse)
       (connAlive : Bool) (ec : EndpointCaller) (text s : String),
      ec.suburl = some s → (s = "name-similarity" ∨ s = "name-translation") →
      EndpointCaller.call loads dumps gunzip cfg responses mpResponse connAlive ec
          (.str text) =
        (.error (.rosette (.str "incompatible")
          (some (.str "Text-only input only works for DocumentParameter endpoints"))
          (.str s)), .noSend)) := by
  constructor
  · intro loads dumps gunzip cfg responses mpResponse connAlive ec text h1 h2
    refine ⟨⟨.document,
      [("content", some (.str text)), ("contentUri", none),
       ("language", none), ("genre", none)], "", false⟩, ?_, ?_, ?_⟩
    · exact rfl
    · exact rfl
    · simp only [EndpointCaller.call]
      rw [if_pos ⟨h1, h2⟩]
      exact rfl
  · intro loads dumps gunzip cfg responses mpResponse connAlive ec text s hs hdisj
    have hcond : ¬(ec.suburl ≠ some "name-similarity" ∧ ec.suburl ≠ some "name-translation") := by
      rintro ⟨hA, hB⟩
      rcases hdisj with h | h
      · exact hA (by rw [hs, h])
      · exact hB (by rw [hs, h])
    simp only [EndpointCaller.call]
    rw [if_neg hcond, hs]

/-- Witness for C6: a plain string on the entities endpoint proceeds
as the wrapped document container; on name-similarity it fails with
incompatible. -/
theorem c6_witness :
    oEcEntities.suburl ≠ some "name-similarity"
    ∧ (∃ p, (ParamSet.init .document).setItem "content" (some (.str "hello")) = .ok p
        ∧ p.getItem "content" = .ok (some (.str "hello"))
        ∧ EndpointCaller.call oLoadsNone oDumps oGunzip oCfg oResp500 oMpResponse true
            oEcEntities (.str "hello") =
          EndpointCaller.callParams oLoadsNone oDumps oGunzip oCfg oResp500 oMpResponse true
            oEcEntities p)
    ∧ oEcNameSim.suburl = some "name-similarity"
    ∧ EndpointCaller.call oLoadsNone oDumps oGunzip oCfg oResp500 oMpResponse true
        oEcNameSim (.str "hello") =
      (.error (.rosette (.str "incompatible")
        (some (.str "Text-only input only works for DocumentParameter endpoints"))
        (.str "name-similarity")), .noSend) :=
  ⟨by decide,
   c6_string_wraps_or_incompatible.1 oLoadsNone oDumps oGunzip oCfg oResp500 oMpResponse
     true oEcEntities "hello" (by decide) (by decide),
   rfl,
   c6_string_wraps_or_incompatible.2 oLoadsNone oDumps oGunzip oCfg oResp500 oMpResponse
     true oEcNameSim "hello" "name-similarity" rfl (Or.inl rfl)⟩
